import Mathlib

/-
Verification of the state-tracker core of package `protocol`
(src/protocol/protocol.go): the `Chain` type, its mutation entry points
`setState` and `setHeight`, the reader methods `Height` and `State`, and
the waiter operations `BlockWaiter` and `BlockSoonWaiter`.

The embedding models the lock-guarded triple
(`c.state.height`, `c.state.snapshot`, contents of `c.pendingSnapshots`)
as a `ChainState` record. Every mutation of the source executes under the
single mutex `c.state.cond.L`, so each call is one atomic step on that
record; a sequence of concurrent calls is a list of such steps. Heights
are `uint64` in Go; they are represented as `Nat` here, with the one
overflow site (`c.Height()+slop` in `BlockSoonWaiter`) made explicit via
`% 2 ^ 64`.
-/

namespace TxVMProtocol

/-- Modelled from the spec: a state snapshot (Go type `state.Snapshot`,
outside the provided source) is an immutable value representing chain
state at a height; the core reads only its height and identity. The
`rest` field abstracts all snapshot content other than the height, so
that two distinct snapshots can share a height. -/
structure Snapshot where
  height : Nat
  rest : Nat
deriving DecidableEq, Repr

/-- Modelled from the spec: `state.Empty()` (outside the provided source)
returns the empty snapshot, whose height is zero. -/
def Snapshot.empty : Snapshot := ⟨0, 0⟩

/-- The `Height()` method of a snapshot returns its height. -/
def Snapshot.Height (s : Snapshot) : Nat := s.height

/-- The mutable state of a `Chain`: the fields guarded by `c.state.cond`
(`height` and `snapshot`), together with the contents of the capacity-1
channel `c.pendingSnapshots` (`none` when the slot is empty). -/
structure ChainState where
  height : Nat
  snapshot : Snapshot
  pending : Option Snapshot
deriving DecidableEq, Repr

/-- `Chain.Height` (protocol.go line 184): reads the tracked height under
the lock. -/
def Height (c : ChainState) : Nat := c.height

/-- `Chain.State` (protocol.go line 193): reads the tracked snapshot under
the lock. -/
def State (c : ChainState) : Snapshot := c.snapshot

/-- The state built by `NewChain` (protocol.go lines 137 to 150) when the
storage height lookup succeeds with value `storeHeight`: the snapshot is
`state.Empty()`, the height is the looked-up value, and the
`pendingSnapshots` channel starts empty. -/
def NewChain (storeHeight : Nat) : ChainState :=
  { height := storeHeight, snapshot := Snapshot.empty, pending := none }

/-- `Chain.setState` (protocol.go lines 199 to 214), translated branch for
branch from the source. If `s.Height() <= c.state.snapshot.Height()` the
call returns with nothing changed; otherwise the snapshot is replaced by
`s`, and if additionally `s.Height() > c.state.height` the height is set
to `s.Height()` and `c.state.cond.Broadcast()` is called. The returned
boolean records whether `Broadcast` was called. The source body contains
no send on `c.pendingSnapshots`, so the `pending` field is untouched. -/
def setState (c : ChainState) (s : Snapshot) : ChainState × Bool :=
  if s.Height ≤ c.snapshot.Height then (c, false)
  else if c.height < s.Height then
    ({ c with snapshot := s, height := s.Height }, true)
  else
    ({ c with snapshot := s }, false)

/-- `Chain.setHeight` (protocol.go lines 216 to 230), translated from the
source: if `h <= c.state.height` the call returns with nothing changed;
otherwise the height is set to `h` and `c.state.cond.Broadcast()` is
called. The returned boolean records whether `Broadcast` was called. -/
def setHeight (c : ChainState) (h : Nat) : ChainState × Bool :=
  if h ≤ c.height then (c, false)
  else ({ c with height := h }, true)

/-- One serialized call into the state tracker: either a snapshot
submission (`setState`, the AcceptSnapshot entry point) or a height
observation (`setHeight`, the AcceptHeight entry point fed by the
height-ingestion goroutine of `NewChain`). -/
inductive Op where
  | acceptSnapshot (s : Snapshot)
  | acceptHeight (h : Nat)
deriving DecidableEq, Repr

/-- The state after one tracker call. -/
def applyOp (c : ChainState) (op : Op) : ChainState :=
  match op with
  | .acceptSnapshot s => (setState c s).1
  | .acceptHeight h => (setHeight c h).1

/-- The state after a sequence of tracker calls. Since every call runs
under the single mutex, any concurrent execution is equivalent to some
such sequence. -/
def run (c : ChainState) (ops : List Op) : ChainState :=
  ops.foldl applyOp c

theorem run_nil (c : ChainState) : run c [] = c := rfl

theorem run_cons (c : ChainState) (op : Op) (ops : List Op) :
    run c (op :: ops) = run (applyOp c op) ops := rfl

/-- C1: For every snapshot s with s.Height() strictly greater than the
current snapshot height, setState (AcceptSnapshot) replaces the tracked
snapshot with s, and after the call the tracked height equals
max(old height, s.Height()). -/
theorem setState_accept (c : ChainState) (s : Snapshot)
    (hs : c.snapshot.Height < s.Height) :
    (setState c s).1.snapshot = s ∧
    (setState c s).1.height = max c.height s.Height := by
  unfold setState
  rw [if_neg (Nat.not_le.mpr hs)]
  by_cases hc : c.height < s.Height
  · rw [if_pos hc]
    exact ⟨rfl, (Nat.max_eq_right (Nat.le_of_lt hc)).symm⟩
  · rw [if_neg hc]
    exact ⟨rfl, (Nat.max_eq_left (Nat.le_of_not_lt hc)).symm⟩

/-- Witness for C1: from the freshly constructed chain at store height 4,
submitting a snapshot of height 7 installs that snapshot and advances the
height to max 4 7 = 7. -/
theorem setState_accept_witness :
    (setState (NewChain 4) ⟨7, 0⟩).1.snapshot = (⟨7, 0⟩ : Snapshot) ∧
    (setState (NewChain 4) ⟨7, 0⟩).1.height
      = max (NewChain 4).height (Snapshot.Height ⟨7, 0⟩) :=
  setState_accept (NewChain 4) ⟨7, 0⟩ (by decide)

/-- C2: setHeight (AcceptHeight) is a no-op when h is at most the tracked
height and otherwise sets the tracked height to exactly h; in both cases
the snapshot (and the pending slot) is unchanged. Equivalently, the
resulting state is the input state with its height replaced by
max(old height, h). -/
theorem setHeight_spec (c : ChainState) (h : Nat) :
    (setHeight c h).1 = { c with height := max c.height h } := by
  unfold setHeight
  by_cases hc : h ≤ c.height
  · rw [if_pos hc, Nat.max_eq_left hc]
  · rw [if_neg hc, Nat.max_eq_right (Nat.le_of_not_le hc)]

/-- C3: For every snapshot s with s.Height() at most the current snapshot
height, setState (AcceptSnapshot) leaves the whole tracker state
unchanged. -/
theorem setState_stale (c : ChainState) (s : Snapshot)
    (hs : s.Height ≤ c.snapshot.Height) :
    (setState c s).1 = c := by
  unfold setState
  rw [if_pos hs]

/-- Witness for C3 (Scenario D of the spec): with the tracked snapshot at
height 7, submitting a snapshot of height 5 changes nothing. -/
theorem setState_stale_witness :
    (setState ⟨7, ⟨7, 1⟩, none⟩ ⟨5, 2⟩).1 = (⟨7, ⟨7, 1⟩, none⟩ : ChainState) :=
  setState_stale ⟨7, ⟨7, 1⟩, none⟩ ⟨5, 2⟩ (by decide)

theorem applyOp_height_le (c : ChainState) (op : Op) :
    c.height ≤ (applyOp c op).height := by
  cases op with
  | acceptSnapshot s =>
      show c.height ≤ (setState c s).1.height
      unfold setState
      by_cases h1 : s.Height ≤ c.snapshot.Height
      · rw [if_pos h1]
      · rw [if_neg h1]
        by_cases h2 : c.height < s.Height
        · rw [if_pos h2]
          exact Nat.le_of_lt h2
        · rw [if_neg h2]
  | acceptHeight h =>
      show c.height ≤ (setHeight c h).1.height
      unfold setHeight
      by_cases h1 : h ≤ c.height
      · rw [if_pos h1]
      · rw [if_neg h1]
        exact Nat.le_of_not_le h1

theorem run_height_le (c : ChainState) (ops : List Op) :
    c.height ≤ (run c ops).height := by
  induction ops generalizing c with
  | nil => exact Nat.le_refl _
  | cons op ops ih =>
      exact Nat.le_trans (applyOp_height_le c op) (ih (applyOp c op))

/-- C4: For every sequence of setHeight and setState calls, in any order,
applied after the initialization by NewChain (or indeed from any state),
the tracked height is non-decreasing over time: the height observed after
any prefix of the calls is at most the height observed after any
extension of that prefix, so no single call ever decreases it. -/
theorem height_monotone (c : ChainState) (ops tail : List Op) :
    Height (run c ops) ≤ Height (run c (ops ++ tail)) := by
  unfold run Height
  rw [List.foldl_append]
  exact run_height_le (List.foldl applyOp c ops) tail

theorem applyOp_inv (c : ChainState) (op : Op)
    (hc : c.snapshot.Height ≤ c.height) :
    (applyOp c op).snapshot.Height ≤ (applyOp c op).height := by
  cases op with
  | acceptSnapshot s =>
      show (setState c s).1.snapshot.Height ≤ (setState c s).1.height
      unfold setState
      by_cases h1 : s.Height ≤ c.snapshot.Height
      · rw [if_pos h1]
        exact hc
      · rw [if_neg h1]
        by_cases h2 : c.height < s.Height
        · rw [if_pos h2]
        · rw [if_neg h2]
          exact Nat.le_of_not_lt h2
  | acceptHeight h =>
      show (setHeight c h).1.snapshot.Height ≤ (setHeight c h).1.height
      unfold setHeight
      by_cases h1 : h ≤ c.height
      · rw [if_pos h1]
        exact hc
      · rw [if_neg h1]
        exact Nat.le_trans hc (Nat.le_of_lt (Nat.lt_of_not_le h1))

/-- C5: The invariant State().Height() ≤ Height() is established by
NewChain — the snapshot starts empty at height zero while the height
starts at the storage lookup value — and is preserved by every setState
and setHeight call, so it holds in every reachable state. -/
theorem snapshot_height_invariant (storeHeight : Nat) (ops : List Op) :
    (State (run (NewChain storeHeight) ops)).Height
      ≤ Height (run (NewChain storeHeight) ops) := by
  have key : ∀ (l : List Op) (c : ChainState), c.snapshot.Height ≤ c.height →
      (run c l).snapshot.Height ≤ (run c l).height := by
    intro l
    induction l with
    | nil => intro c hc; exact hc
    | cons op ops ih =>
        intro c hc
        exact ih (applyOp c op) (applyOp_inv c op hc)
  exact key ops (NewChain storeHeight) (Nat.zero_le _)

/-- C6 counterexample: at tracked height 10 with a snapshot of height 0, a
submitted snapshot of height 5 is accepted — it replaces the tracked
snapshot — yet `Broadcast` is not called (no waiter is woken) and nothing
is placed in the `pendingSnapshots` slot, refuting the claim that every
accepted snapshot both wakes all waiters and is enqueued for
persistence. -/
theorem setState_accept_no_wake_no_enqueue :
    (setState ⟨10, ⟨0, 0⟩, none⟩ ⟨5, 0⟩).1.snapshot = (⟨5, 0⟩ : Snapshot) ∧
    (setState ⟨10, ⟨0, 0⟩, none⟩ ⟨5, 0⟩).2 = false ∧
    (setState ⟨10, ⟨0, 0⟩, none⟩ ⟨5, 0⟩).1.pending = none := by
  decide

/-- C6 amended: setState never modifies the `pendingSnapshots` slot (the
source body of `Chain.setState` contains no channel send, so enqueueing
for persistence is not performed by the state tracker in this code), and
it wakes all waiters — calls `Broadcast` — exactly when the submitted
snapshot is accepted and its height also exceeds the tracked height. -/
theorem setState_wake_pending (c : ChainState) (s : Snapshot) :
    (setState c s).1.pending = c.pending ∧
    ((setState c s).2 = true ↔
      (c.snapshot.Height < s.Height ∧ c.height < s.Height)) := by
  unfold setState
  by_cases h1 : s.Height ≤ c.snapshot.Height
  · rw [if_pos h1]
    refine ⟨rfl, ⟨fun hb => by simp at hb, fun hcontra => ?_⟩⟩
    exact absurd h1 (Nat.not_le.mpr hcontra.1)
  · rw [if_neg h1]
    by_cases h2 : c.height < s.Height
    · rw [if_pos h2]
      exact ⟨rfl, ⟨fun _ => ⟨Nat.lt_of_not_le h1, h2⟩, fun _ => rfl⟩⟩
    · rw [if_neg h2]
      exact ⟨rfl, ⟨fun hb => by simp at hb, fun hcontra => absurd hcontra.2 h2⟩⟩

/-- Witness for C6 amended: from the fresh chain at store height 0, a
snapshot of height 1 is accepted with its height above the tracked
height, and `Broadcast` is called. -/
theorem setState_wake_pending_witness :
    (setState (NewChain 0) ⟨1, 0⟩).2 = true :=
  (setState_wake_pending (NewChain 0) ⟨1, 0⟩).2.mpr (by decide)

/-- The sequence of values of the tracked height that a waiter goroutine
registered at state `c` observes under the lock: the value at
registration, followed by the value after each subsequent tracker call.
(`Broadcast` happens only on calls that advance the height; calls that do
not broadcast leave the height unchanged, so including every
post-call value does not alter which heights the waiter can see.) -/
def traceHeights (c : ChainState) : List Op → List Nat
  | [] => [c.height]
  | op :: ops => c.height :: traceHeights (applyOp c op) ops

/-- The re-check loop of `Chain.BlockWaiter` (protocol.go lines 260 to
272): while `c.state.height < height` the goroutine waits on the
condition variable, re-checking the height after each wakeup; it sends on
its channel once the check passes. Given the successive heights the
goroutine observes, this returns the observed height at which the channel
is signaled, or `none` if the goroutine is still blocked after all of
them. -/
def blockWaiterRun (target : Nat) : List Nat → Option Nat
  | [] => none
  | h :: rest => if target ≤ h then some h else blockWaiterRun target rest

theorem blockWaiterRun_some_le (target : Nat) (hs : List Nat) (h : Nat)
    (hh : blockWaiterRun target hs = some h) : target ≤ h := by
  induction hs with
  | nil => exact absurd hh (by simp [blockWaiterRun])
  | cons a rest ih =>
      unfold blockWaiterRun at hh
      by_cases ha : target ≤ a
      · rw [if_pos ha] at hh
        cases hh
        exact ha
      · rw [if_neg ha] at hh
        exact ih hh

theorem blockWaiterRun_trace (c : ChainState) (ops : List Op) (target : Nat) :
    (blockWaiterRun target (traceHeights c ops)).isSome
      ↔ target ≤ (run c ops).height := by
  induction ops generalizing c with
  | nil =>
      unfold traceHeights blockWaiterRun
      by_cases hc : target ≤ c.height
      · rw [if_pos hc]
        simpa [run] using hc
      · rw [if_neg hc]
        simpa [run, blockWaiterRun] using hc
  | cons op ops ih =>
      unfold traceHeights blockWaiterRun
      by_cases hc : target ≤ c.height
      · rw [if_pos hc]
        have : target ≤ (run c (op :: ops)).height := by
          rw [run_cons]
          exact Nat.le_trans hc
            (Nat.le_trans (applyOp_height_le c op) (run_height_le _ ops))
        simpa using this
      · rw [if_neg hc]
        rw [run_cons]
        exact ih (applyOp c op)

/-- C9: The channel returned by BlockWaiter(H) is signaled iff the tracked
height is or becomes at least H: across any sequence of tracker calls, the
waiter resolves exactly when the final tracked height is at least H, it
never signals at an observed height below H, and if the height is already
at least H at registration it signals immediately at that height
(Scenario A of the spec). -/
theorem blockWaiter_correct (c : ChainState) (ops : List Op) (target : Nat) :
    ((blockWaiterRun target (traceHeights c ops)).isSome
        ↔ target ≤ Height (run c ops)) ∧
    (∀ h, blockWaiterRun target (traceHeights c ops) = some h → target ≤ h) ∧
    (target ≤ c.height → blockWaiterRun target (traceHeights c ops) = some c.height) := by
  refine ⟨blockWaiterRun_trace c ops target,
    fun h hh => blockWaiterRun_some_le target _ h hh, fun hc => ?_⟩
  cases ops with
  | nil => simp [traceHeights, blockWaiterRun, hc]
  | cons op ops => simp [traceHeights, blockWaiterRun, hc]

/-- Witness for C9 (Scenario B of the spec): a waiter for height 15
registered at height 10 resolves once AcceptHeight(15) is processed. -/
theorem blockWaiter_correct_witness :
    (blockWaiterRun 15 (traceHeights (NewChain 10) [Op.acceptHeight 15])).isSome :=
  (blockWaiter_correct (NewChain 10) [Op.acceptHeight 15] 15).1.mpr (by decide)

/-- Which of the two `select` cases in the `BlockSoonWaiter` goroutine
becomes ready first: the channel of the inner `BlockWaiter` (the tracked
height reached the target) or `ctx.Done()` (the context was canceled
before the height reached the target). -/
inductive FirstEvent where
  | heightReached
  | ctxDone
deriving DecidableEq, Repr

/-- The value delivered on the error channel of `BlockSoonWaiter`: the
distant-future error, `nil` (the target height was reached), or
`ctx.Err()` (the cancellation error of the context). -/
inductive SoonResult where
  | distantFuture
  | ok
  | ctxErr
deriving DecidableEq, Repr

/-- The goroutine body of `Chain.BlockSoonWaiter` (protocol.go lines 237
to 256), where `h` is the value `c.Height()` read by the guard. With
`slop = 3`, if `height > c.Height()+slop` — a `uint64` addition, hence
the explicit wrap `% 2 ^ 64` — the goroutine sends `ErrTheDistantFuture`
and returns without calling `BlockWaiter`; otherwise it registers an inner
waiter and selects between its channel and `ctx.Done()`, sending `nil` or
`ctx.Err()` accordingly. The boolean records whether the inner waiter was
registered (the `select` was entered). -/
def blockSoonWaiter (h target : Nat) (first : FirstEvent) : SoonResult × Bool :=
  if (h + 3) % 2 ^ 64 < target then (.distantFuture, false)
  else
    match first with
    | .heightReached => (.ok, true)
    | .ctxDone => (.ctxErr, true)

/-- C7: For every target height H with H > Height() + 3 at the time of the
check (SLOP = 3, the sum not wrapping), BlockSoonWaiter delivers
ErrTheDistantFuture immediately, without registering an inner waiter,
whatever the state of the context. -/
theorem blockSoonWaiter_distant (h target : Nat) (first : FirstEvent)
    (hw : h + 3 < 2 ^ 64) (hgt : h + 3 < target) :
    blockSoonWaiter h target first = (SoonResult.distantFuture, false) := by
  unfold blockSoonWaiter
  rw [Nat.mod_eq_of_lt hw, if_pos hgt]

/-- Witness for C7 (Scenario C of the spec): at height 10, waiting for
height 100 fails immediately with the distant-future error even when the
context is already canceled. -/
theorem blockSoonWaiter_distant_witness :
    blockSoonWaiter 10 100 FirstEvent.ctxDone = (SoonResult.distantFuture, false) :=
  blockSoonWaiter_distant 10 100 FirstEvent.ctxDone (by norm_num) (by norm_num)

/-- C8: For every target height H with H ≤ Height() + 3 at the time of the
check, if the context is canceled before the tracked height reaches H —
the `ctx.Done()` case of the `select` fires first — BlockSoonWaiter
delivers the cancellation error `ctx.Err()`, and never
ErrTheDistantFuture. -/
theorem blockSoonWaiter_cancel (h target : Nat)
    (hle : target ≤ (h + 3) % 2 ^ 64) :
    (blockSoonWaiter h target FirstEvent.ctxDone).1 = SoonResult.ctxErr ∧
    (blockSoonWaiter h target FirstEvent.ctxDone).1 ≠ SoonResult.distantFuture := by
  unfold blockSoonWaiter
  rw [if_neg (Nat.not_lt.mpr hle)]
  exact ⟨rfl, by simp⟩

/-- Witness for C8: at height 10, a wait for height 12 whose context is
canceled first yields the cancellation error. -/
theorem blockSoonWaiter_cancel_witness :
    (blockSoonWaiter 10 12 FirstEvent.ctxDone).1 = SoonResult.ctxErr ∧
    (blockSoonWaiter 10 12 FirstEvent.ctxDone).1 ≠ SoonResult.distantFuture :=
  blockSoonWaiter_cancel 10 12 (by norm_num)

/-- C10: The guard of BlockSoonWaiter computes Height() + 3 in wrapping
unsigned 64-bit arithmetic: for every current height h within 3 of the
maximum uint64 value, the sum wraps to a small value, so there is a
target height H ≤ h — one the chain has already reached — for which
BlockSoonWaiter delivers ErrTheDistantFuture (without registering a
waiter) instead of resolving. -/
theorem blockSoonWaiter_wrap (h : Nat) (h1 : 2 ^ 64 - 1 - 3 < h)
    (h2 : h < 2 ^ 64) :
    ∃ target, target ≤ h ∧
      ∀ first, blockSoonWaiter h target first = (SoonResult.distantFuture, false) := by
  have e : (2 : Nat) ^ 64 = 18446744073709551616 := by norm_num
  refine ⟨3, by omega, fun first => ?_⟩
  unfold blockSoonWaiter
  rw [e] at h1 h2 ⊢
  rw [if_pos (by omega)]

/-- Witness for C10: at the maximum uint64 height, even a wait for height
3 — far in the past — is rejected as the distant future. -/
theorem blockSoonWaiter_wrap_witness :
    ∃ target, target ≤ 2 ^ 64 - 1 ∧
      ∀ first, blockSoonWaiter (2 ^ 64 - 1) target first
        = (SoonResult.distantFuture, false) :=
  blockSoonWaiter_wrap (2 ^ 64 - 1) (by norm_num) (by norm_num)

end TxVMProtocol
